import Mathlib

/-!
# Verification of the E-Commerce API checkout workflow

Shallow embedding of the repository's route handlers over an explicit
relational store.  The embedded code follows the source files:

* `routes/orders.js`   — `POST /orders/:cartId` (place order) and
  `GET /orders/:orderId` (retrieve order);
* `routes/carts.js`    — `POST /carts/:cartId/products` (add item);
* `routes/products.js` — `PUT /products/:id` (update product) and
  `DELETE /products/:id` (delete product).

The Supabase datastore is modelled as lists of rows, one list per table,
plus a counter supplying the next generated order id.  Each `await supabase…`
call in a handler is one "store call"; a failure schedule `fail : Nat → Bool`
says which store call of an invocation reports an error (the handlers check
each call's `error` field and bail out via `next(...)`, so a failed call is
modelled as performing no write).  Prices are exact rationals.

`created_at` timestamps are not modelled: no property here mentions them.
-/

/-- A row of the `products` table (`id, name, description, price, category`). -/
structure Product where
  id : Nat
  name : String
  description : String
  price : ℚ
  category : String
deriving DecidableEq, Repr

/-- A row of the `carts` table (`id, user_id`). -/
structure CartRow where
  id : Nat
  user_id : Nat
deriving DecidableEq, Repr

/-- A row of the `cart_items` table (`cart_id, product_id, quantity`). -/
structure CartItemRow where
  cart_id : Nat
  product_id : Nat
  quantity : Nat
deriving DecidableEq, Repr

/-- A row of the `orders` table (`id, user_id, total_cost`); `created_at`
is generated by the store and not modelled. -/
structure OrderRow where
  id : Nat
  user_id : Nat
  total_cost : ℚ
deriving DecidableEq, Repr

/-- A row of the `order_items` table.  The insert in `routes/orders.js`
(lines 55–63) supplies exactly `order_id`, `product_id` and `quantity`;
there is no price column in the inserted record. -/
structure OrderItemRow where
  order_id : Nat
  product_id : Nat
  quantity : Nat
deriving DecidableEq, Repr

/-- The remote datastore: one list per relation, plus the id sequence
backing the `orders` table's generated primary key. -/
structure Store where
  products : List Product
  carts : List CartRow
  cart_items : List CartItemRow
  orders : List OrderRow
  order_items : List OrderItemRow
  nextOrderId : Nat
deriving DecidableEq, Repr

/-- Errors a handler can hand to `next(...)`.  `badRequest` and `notFound`
are the repository's `BadRequestError` / `NotFoundError`; `internal` is a
plain `new Error(message)` built from a store error; `typeError` is the
TypeError thrown by `item.product.price` when the joined `product` is
`null`, caught by the handler's `catch` and passed to `next`. -/
inductive AppError where
  | badRequest (msg : String)
  | notFound (msg : String)
  | internal (msg : String)
  | typeError
deriving DecidableEq, Repr

/-- Modelled from the spec: `errors/customErrors.js` and
`errors/errorHandler.js` are not under `src/` (only their callers are).
Per spec §6–§7 and the README's "centralized error handling middleware",
caller-correctable validation errors (`BadRequestError`) map to 400,
not-found errors (`NotFoundError`) to 404, and any other error reaching
the handler — a plain `Error` or an uncaught `TypeError` — to 500. -/
def statusOf : AppError → Nat
  | .badRequest _ => 400
  | .notFound _ => 404
  | .internal _ => 500
  | .typeError => 500

/-- One element of the `cart_items` select in `routes/orders.js` lines 15–26:
`product_id, quantity, product:products ( price )`.  The embedded join
yields `none` for `product` when the referenced product row is gone
(Supabase returns `null` there). -/
structure JoinedCartItem where
  product_id : Nat
  quantity : Nat
  product : Option ℚ
deriving DecidableEq, Repr

/-- The rows of `cart_items` belonging to one cart. -/
def cartRows (s : Store) (cartId : Nat) : List CartItemRow :=
  s.cart_items.filter (fun it => it.cart_id == cartId)

/-- The `cart_items` select of `routes/orders.js` lines 15–26: all rows with
the given `cart_id`, each joined with the referenced product's price. -/
def fetchCartItems (s : Store) (cartId : Nat) : List JoinedCartItem :=
  (cartRows s cartId).map
    (fun it =>
      { product_id := it.product_id
        quantity := it.quantity
        product := (s.products.find? (fun p => p.id == it.product_id)).map
          (fun p => p.price) })

/-- The `reduce` of `routes/orders.js` lines 37–40:
`(sum, item) => sum + item.quantity * item.product.price` starting from 0.
Reading `.price` of a `null` product throws, so the fold aborts with `none`
at the first joined item whose product is missing. -/
def totalCostAux (acc : ℚ) : List JoinedCartItem → Option ℚ
  | [] => some acc
  | it :: rest =>
    match it.product with
    | none => none
    | some p => totalCostAux (acc + it.quantity * p) rest

/-- Total cost of a list of joined cart items, `none` if the reduce throws. -/
def totalCost (items : List JoinedCartItem) : Option ℚ :=
  totalCostAux 0 items

/-- `POST /orders/:cartId` (`routes/orders.js` lines 9–83).  Store calls of
this handler, in program order: 0 = `cart_items` select, 1 = `orders`
insert, 2 = `order_items` insert, 3 = `cart_items` delete; `fail k` means
call `k` reports a store error.  Returns the handler outcome (`orderId` on
201, the error handed to `next` otherwise), the final store, and the list
of store states observable during the invocation (initial state first,
then the state after each successful write). -/
def placeOrder (fail : Nat → Bool) (s : Store) (cartId userId : Nat) :
    Except AppError Nat × Store × List Store :=
  if fail 0 then (.error (.internal "cart select failed"), s, [s])
  else
    let cartItems := fetchCartItems s cartId
    if cartItems.length = 0 then (.error (.badRequest "Cart is empty"), s, [s])
    else
      match totalCost cartItems with
      | none => (.error .typeError, s, [s])
      | some tc =>
        if fail 1 then (.error (.internal "order insert failed"), s, [s])
        else
          let orderId := s.nextOrderId
          let s1 : Store :=
            { s with
              orders := s.orders ++ [{ id := orderId, user_id := userId, total_cost := tc }]
              nextOrderId := orderId + 1 }
          if fail 2 then (.error (.internal "order items insert failed"), s1, [s, s1])
          else
            let s2 : Store :=
              { s1 with
                order_items := s1.order_items ++ cartItems.map
                  (fun it =>
                    { order_id := orderId
                      product_id := it.product_id
                      quantity := it.quantity }) }
            if fail 3 then (.error (.internal "cart clear failed"), s2, [s, s1, s2])
            else
              let s3 : Store :=
                { s2 with
                  cart_items := s2.cart_items.filter (fun it => ¬(it.cart_id == cartId)) }
              (.ok orderId, s3, [s, s1, s2, s3])

/-- The product sub-object of the order-retrieval join
(`product:products ( name, description, price, category )`). -/
structure ProductView where
  name : String
  description : String
  price : ℚ
  category : String
deriving DecidableEq, Repr

/-- One line item as returned by `GET /orders/:orderId`: `product_id`,
`quantity`, and the referenced product joined live from the catalog
(`none` when the product row is gone). -/
structure OrderItemView where
  product_id : Nat
  quantity : Nat
  product : Option ProductView
deriving DecidableEq, Repr

/-- The body returned by `GET /orders/:orderId` on success
(`id, total_cost, order_items (...)`; `created_at` not modelled). -/
structure OrderView where
  id : Nat
  total_cost : ℚ
  order_items : List OrderItemView
deriving DecidableEq, Repr

/-- `GET /orders/:orderId` (`routes/orders.js` lines 86–120): select the
order row with `.single()` — any store error there, in particular the
zero-row case, becomes `NotFoundError("Order not found")` — and join its
`order_items` with live product details. -/
def getOrder (s : Store) (orderId : Nat) : Except AppError OrderView :=
  match s.orders.find? (fun o => o.id == orderId) with
  | none => .error (.notFound "Order not found")
  | some o =>
    .ok
      { id := o.id
        total_cost := o.total_cost
        order_items :=
          (s.order_items.filter (fun it => it.order_id == orderId)).map
            (fun it =>
              { product_id := it.product_id
                quantity := it.quantity
                product := (s.products.find? (fun p => p.id == it.product_id)).map
                  (fun p =>
                    { name := p.name
                      description := p.description
                      price := p.price
                      category := p.category }) }) }

/-- `POST /carts/:cartId/products` (`routes/carts.js` lines 166–188).
Request-body fields are modelled as `Option Nat`; the JS guard
`if (!productId || !quantity)` treats an absent field and `0` as falsy.
Past that guard the handler inserts the `cart_items` row directly —
there is no lookup of the `products` table anywhere in this handler. -/
def addProductToCart (s : Store) (cartId : Nat) (productId quantity : Option Nat) :
    Except AppError CartItemRow × Store :=
  if productId.getD 0 = 0 ∨ quantity.getD 0 = 0 then
    (.error (.badRequest "Product ID and quantity are required"), s)
  else
    let row : CartItemRow :=
      { cart_id := cartId, product_id := productId.getD 0, quantity := quantity.getD 0 }
    (.ok row, { s with cart_items := s.cart_items ++ [row] })

/-- `PUT /products/:id` (`routes/products.js`): check the product exists
(`.single()`, else `NotFoundError("Product not found")`), then update
`name, description, price, category` on the row with that id. -/
def updateProduct (s : Store) (id : Nat) (name description : String)
    (price : ℚ) (category : String) : Except AppError Product × Store :=
  match s.products.find? (fun p => p.id == id) with
  | none => (.error (.notFound "Product not found"), s)
  | some _ =>
    let p' : Product :=
      { id := id, name := name, description := description
        price := price, category := category }
    (.ok p', { s with products := s.products.map (fun p => if p.id == id then p' else p) })

/-- `DELETE /products/:id` (`routes/products.js`): unconditionally delete
the catalog row with that id. -/
def deleteProduct (s : Store) (id : Nat) : Store :=
  { s with products := s.products.filter (fun p => ¬(p.id == id)) }

/-- The failure-free store schedule: every store call succeeds. -/
def noFail : Nat → Bool := fun _ => false

deriving instance DecidableEq for Except

/-- The total the spec's §8 formula assigns to a list of joined items:
Σ quantity × unit price (price read from the join, i.e. at call time). -/
def specTotal (items : List JoinedCartItem) : ℚ :=
  (items.map (fun it => (it.quantity : ℚ) * it.product.getD 0)).sum

/-! ## Helper lemmas about the total-cost reduce -/

/-- If every joined item still has its product, the reduce of
`routes/orders.js` lines 37–40 completes and returns the spec's
Σ quantity × price. -/
theorem totalCostAux_of_all_some (l : List JoinedCartItem) :
    ∀ acc : ℚ, (∀ it ∈ l, it.product ≠ none) →
      totalCostAux acc l = some (acc + specTotal l) := by
  induction l with
  | nil => intro acc _; simp [totalCostAux, specTotal]
  | cons it rest ih =>
    intro acc h
    have hit : it.product ≠ none := h it (List.mem_cons_self it rest)
    cases hp : it.product with
    | none => exact absurd hp hit
    | some p =>
      simp only [totalCostAux, hp]
      rw [ih _ (fun x hx => h x (List.mem_cons_of_mem it hx))]
      congr 1
      simp only [specTotal, List.map_cons, List.sum_cons, hp, Option.getD_some]
      ring

/-- If some joined item lost its product, the reduce throws (`none`). -/
theorem totalCostAux_of_exists_none (l : List JoinedCartItem) :
    ∀ acc : ℚ, (∃ it ∈ l, it.product = none) → totalCostAux acc l = none := by
  induction l with
  | nil => intro acc h; simp at h
  | cons it rest ih =>
    intro acc h
    cases hp : it.product with
    | none => simp [totalCostAux, hp]
    | some p =>
      simp only [totalCostAux, hp]
      rcases h with ⟨x, hx, hxn⟩
      rcases List.mem_cons.mp hx with h1 | h2
      · rw [h1] at hxn
        rw [hxn] at hp
        exact Option.noConfusion hp
      · exact ih _ ⟨x, h2, hxn⟩

/-- A cart with no `cart_items` rows makes `PlaceOrder` bail out with
`BadRequestError("Cart is empty")` before any write. -/
theorem placeOrder_cartRows_nil (s : Store) (cartId userId : Nat)
    (h : cartRows s cartId = []) :
    placeOrder noFail s cartId userId =
      (.error (.badRequest "Cart is empty"), s, [s]) := by
  simp [placeOrder, noFail, fetchCartItems, h]

/-! ## Concrete stores used as witnesses -/

/-- The spec's §8 scenario: productA (id 1) at 10.00, productB (id 2) at
5.00; cart 1 holds qty 2 of productA and qty 1 of productB. -/
def s1Ex : Store :=
  { products := [{ id := 1, name := "productA", description := "", price := 10, category := "" },
                 { id := 2, name := "productB", description := "", price := 5, category := "" }]
    carts := [{ id := 1, user_id := 7 }]
    cart_items := [{ cart_id := 1, product_id := 1, quantity := 2 },
                   { cart_id := 1, product_id := 2, quantity := 1 }]
    orders := []
    order_items := []
    nextOrderId := 1 }

/-- A store whose cart 1 exists but holds no items. -/
def sEmptyEx : Store :=
  { products := [{ id := 1, name := "productA", description := "", price := 10, category := "" }]
    carts := [{ id := 1, user_id := 7 }]
    cart_items := []
    orders := []
    order_items := []
    nextOrderId := 1 }

/-! ## C1 and C4 -/

/-- C1: for every non-empty cart all of whose referenced products still
exist, `PlaceOrder` succeeds and creates exactly one order whose
`total_cost` is Σ quantity × price with prices read at call time, one
`order_items` row per cart item, and it empties the cart. -/
theorem placeOrder_total_correct (s : Store) (cartId userId : Nat)
    (hne : fetchCartItems s cartId ≠ [])
    (hall : ∀ it ∈ fetchCartItems s cartId, it.product ≠ none) :
    (placeOrder noFail s cartId userId).1 = .ok s.nextOrderId ∧
    (placeOrder noFail s cartId userId).2.1.orders =
      s.orders ++ [{ id := s.nextOrderId, user_id := userId,
                     total_cost := specTotal (fetchCartItems s cartId) }] ∧
    (placeOrder noFail s cartId userId).2.1.order_items =
      s.order_items ++ (fetchCartItems s cartId).map
        (fun it => { order_id := s.nextOrderId, product_id := it.product_id,
                     quantity := it.quantity }) ∧
    cartRows (placeOrder noFail s cartId userId).2.1 cartId = [] := by
  have htc : totalCost (fetchCartItems s cartId) =
      some (specTotal (fetchCartItems s cartId)) := by
    simpa [totalCost] using totalCostAux_of_all_some (fetchCartItems s cartId) 0 hall
  have hlen : ¬((fetchCartItems s cartId).length = 0) := by
    simpa [List.length_eq_zero] using hne
  simp only [placeOrder, noFail, Bool.false_eq_true, if_false, hlen, htc, if_neg]
  refine ⟨trivial, trivial, trivial, ?_⟩
  simp [cartRows, List.filter_filter]

/-- Witness for C1 at the spec's §8 scenario: total 25.00, two
`order_items` rows, cart emptied. -/
theorem placeOrder_total_correct_witness :
    (placeOrder noFail s1Ex 1 7).1 = .ok 1 ∧
    (placeOrder noFail s1Ex 1 7).2.1.orders =
      [{ id := 1, user_id := 7, total_cost := 25 }] ∧
    (placeOrder noFail s1Ex 1 7).2.1.order_items.length = 2 ∧
    cartRows (placeOrder noFail s1Ex 1 7).2.1 1 = [] := by
  obtain ⟨h1, h2, h3, h4⟩ := placeOrder_total_correct s1Ex 1 7 (by decide) (by decide)
  refine ⟨?_, ?_, ?_, h4⟩
  · rw [h1]; rfl
  · rw [h2]
    norm_num [s1Ex, specTotal, fetchCartItems, cartRows]
  · rw [h3]
    simp [s1Ex, fetchCartItems, cartRows]

/-- C4: a cart with zero items makes `PlaceOrder` fail with the empty-cart
error (`BadRequestError("Cart is empty")`, the spec's `EmptyCartError`) and
leaves the store unchanged: no `orders` row, no `order_items` row. -/
theorem placeOrder_empty_cart_error (s : Store) (cartId userId : Nat)
    (h : cartRows s cartId = []) :
    placeOrder noFail s cartId userId =
      (.error (.badRequest "Cart is empty"), s, [s]) :=
  placeOrder_cartRows_nil s cartId userId h

/-- Witness for C4 on a concrete store whose cart 1 has no items. -/
theorem placeOrder_empty_cart_error_witness :
    cartRows sEmptyEx 1 = [] ∧
    placeOrder noFail sEmptyEx 1 7 =
      (.error (.badRequest "Cart is empty"), sEmptyEx, [sEmptyEx]) :=
  ⟨by decide, placeOrder_empty_cart_error sEmptyEx 1 7 (by decide)⟩

/-! ## C5 and C6: failure identities -/

/-- A store whose cart 1 references product 42, which is gone from the
catalog (the since-deleted-product scenario). -/
def sDangling : Store :=
  { products := []
    carts := [{ id := 1, user_id := 7 }]
    cart_items := [{ cart_id := 1, product_id := 42, quantity := 1 }]
    orders := []
    order_items := []
    nextOrderId := 1 }

/-- A store in which cart 5 does not exist: no `carts` row and no
`cart_items` row mentions it. -/
def sNoCart : Store :=
  { products := [{ id := 1, name := "productA", description := "", price := 10, category := "" }]
    carts := []
    cart_items := []
    orders := []
    order_items := []
    nextOrderId := 1 }

/-- C5 counterexample: checking out a cart referencing a since-deleted
product does not fail with any `DanglingReferenceError` — no such error
exists in the code.  The `reduce` reads `.price` of the `null` joined
product, the thrown TypeError reaches the catch-all and surfaces as a
500, and no order row is created. -/
theorem placeOrder_dangling_counterexample :
    (placeOrder noFail sDangling 1 7).1 = .error .typeError ∧
    statusOf .typeError = 500 ∧
    (placeOrder noFail sDangling 1 7).2.1.orders = [] := by decide

/-- C5 amended: if the cart is non-empty but some referenced product no
longer exists, `PlaceOrder` fails with the thrown TypeError (surfaced as
a 500 by the error handler, not a dedicated `DanglingReferenceError`),
does not silently skip the item, and leaves the store unchanged — in
particular it creates no Order row. -/
theorem placeOrder_dangling_typeError (s : Store) (cartId userId : Nat)
    (hne : fetchCartItems s cartId ≠ [])
    (hmiss : ∃ it ∈ fetchCartItems s cartId, it.product = none) :
    placeOrder noFail s cartId userId = (.error .typeError, s, [s]) := by
  have htc : totalCost (fetchCartItems s cartId) = none := by
    simpa [totalCost] using totalCostAux_of_exists_none (fetchCartItems s cartId) 0 hmiss
  have hlen : ¬((fetchCartItems s cartId).length = 0) := by
    simpa [List.length_eq_zero] using hne
  simp [placeOrder, noFail, hlen, htc]

/-- Witness for the amended C5 at the concrete dangling store. -/
theorem placeOrder_dangling_typeError_witness :
    placeOrder noFail sDangling 1 7 = (.error .typeError, sDangling, [sDangling]) :=
  placeOrder_dangling_typeError sDangling 1 7 (by decide) (by decide)

/-- C6 counterexample: cart 5 does not exist in `sNoCart`, yet `PlaceOrder`
answers `BadRequestError("Cart is empty")` — a 400 — not a `CartNotFound`
mapped to 404. -/
theorem placeOrder_cart_not_found_counterexample :
    sNoCart.carts = [] ∧
    (placeOrder noFail sNoCart 5 7).1 = .error (.badRequest "Cart is empty") ∧
    statusOf (.badRequest "Cart is empty") = 400 := by decide

/-- C6 amended: a `cartId` that resolves to no cart at all (no `carts` row,
no `cart_items` row) is not detected as missing; `PlaceOrder` answers the
same `BadRequestError("Cart is empty")` (HTTP 400) as for an existing
empty cart — there is no `CartNotFound`/404 path. -/
theorem placeOrder_missing_cart_as_empty (s : Store) (cartId userId : Nat)
    (hc : ∀ c ∈ s.carts, c.id ≠ cartId)
    (hi : ∀ it ∈ s.cart_items, it.cart_id ≠ cartId) :
    placeOrder noFail s cartId userId =
      (.error (.badRequest "Cart is empty"), s, [s]) ∧
    statusOf (.badRequest "Cart is empty") = 400 := by
  have hrows : cartRows s cartId = [] := by
    rw [cartRows, List.filter_eq_nil_iff]
    intro it hit
    simpa using hi it hit
  exact ⟨placeOrder_cartRows_nil s cartId userId hrows, rfl⟩

/-- Witness for the amended C6 at the concrete store without cart 5. -/
theorem placeOrder_missing_cart_as_empty_witness :
    placeOrder noFail sNoCart 5 7 =
      (.error (.badRequest "Cart is empty"), sNoCart, [sNoCart]) ∧
    statusOf (.badRequest "Cart is empty") = 400 :=
  placeOrder_missing_cart_as_empty sNoCart 5 7 (by decide) (by decide)

/-! ## C3: retrying a checked-out cart -/

/-- Whenever `PlaceOrder` reaches its 201 response, the final store's
`cart_items` are the initial ones minus the rows of the checked-out cart
(the clear is the last write before responding). -/
theorem placeOrder_ok_cart_items (f : Nat → Bool) (s : Store)
    (cartId userId oid : Nat)
    (h : (placeOrder f s cartId userId).1 = .ok oid) :
    (placeOrder f s cartId userId).2.1.cart_items =
      s.cart_items.filter (fun it => ¬(it.cart_id == cartId)) := by
  by_cases h0 : f 0
  · simp [placeOrder, h0] at h
  · by_cases hlen : (fetchCartItems s cartId).length = 0
    · simp [placeOrder, h0, hlen] at h
    · cases htc : totalCost (fetchCartItems s cartId) with
      | none => simp [placeOrder, h0, hlen, htc] at h
      | some tc =>
        by_cases h1 : f 1
        · simp [placeOrder, h0, hlen, htc, h1] at h
        · by_cases h2 : f 2
          · simp [placeOrder, h0, hlen, htc, h1, h2] at h
          · by_cases h3 : f 3
            · simp [placeOrder, h0, hlen, htc, h1, h2, h3] at h
            · simp [placeOrder, h0, hlen, htc, h1, h2, h3]

/-- C3 counterexample: after a successful checkout of cart 1 (order id 1),
calling `PlaceOrder` again on the same cart does not return the same
order id and does not raise any `ConflictError`/409 — it answers
`BadRequestError("Cart is empty")`, a 400. -/
theorem placeOrder_retry_counterexample :
    (placeOrder noFail s1Ex 1 7).1 = .ok 1 ∧
    (placeOrder noFail (placeOrder noFail s1Ex 1 7).2.1 1 7).1 =
      .error (.badRequest "Cart is empty") ∧
    (placeOrder noFail (placeOrder noFail s1Ex 1 7).2.1 1 7).1 ≠ .ok 1 ∧
    statusOf (.badRequest "Cart is empty") = 400 := by decide

/-- C3 amended: invoking `PlaceOrder` a second time on a cart whose first
invocation succeeded fails with `BadRequestError("Cart is empty")` — it
neither returns the first order id nor a `ConflictError` — and it leaves
the store unchanged, so no second Order row is ever created. -/
theorem placeOrder_retry_empty (s : Store) (cartId userId userId2 oid : Nat)
    (h : (placeOrder noFail s cartId userId).1 = .ok oid) :
    placeOrder noFail (placeOrder noFail s cartId userId).2.1 cartId userId2 =
      (.error (.badRequest "Cart is empty"),
       (placeOrder noFail s cartId userId).2.1,
       [(placeOrder noFail s cartId userId).2.1]) := by
  apply placeOrder_cartRows_nil
  rw [cartRows, placeOrder_ok_cart_items noFail s cartId userId oid h]
  simp [List.filter_filter]

/-- Witness for the amended C3 at the §8 scenario store. -/
theorem placeOrder_retry_empty_witness :
    placeOrder noFail (placeOrder noFail s1Ex 1 7).2.1 1 7 =
      (.error (.badRequest "Cart is empty"),
       (placeOrder noFail s1Ex 1 7).2.1,
       [(placeOrder noFail s1Ex 1 7).2.1]) :=
  placeOrder_retry_empty s1Ex 1 7 7 1 (by decide)

/-! ## C2: price snapshots -/

/-- The per-item product details returned by `GET /orders/:orderId` are
joined live from the current `products` rows of the store being read. -/
theorem getOrder_product_live (s : Store) (orderId : Nat) (v : OrderView)
    (h : getOrder s orderId = .ok v) :
    ∀ iv ∈ v.order_items,
      iv.product = (s.products.find? (fun p => p.id == iv.product_id)).map
        (fun p => ProductView.mk p.name p.description p.price p.category) := by
  unfold getOrder at h
  cases hf : s.orders.find? (fun o => o.id == orderId) with
  | none => rw [hf] at h; exact absurd h (by simp)
  | some o =>
    rw [hf] at h
    simp only [Except.ok.injEq] at h
    subst h
    intro iv hiv
    simp only [List.mem_map] at hiv
    obtain ⟨it, _, rfl⟩ := hiv
    rfl

/-- An extraction helper: the list of per-item joined prices in an order
retrieval response. -/
def itemPrices (r : Except AppError OrderView) : Option (List (Option ℚ)) :=
  match r with
  | .error _ => none
  | .ok v => some (v.order_items.map (fun iv => iv.product.map (fun p => p.price)))

/-- The store of the §8 scenario after the catalog price of product 1 was
raised from 10.00 to 99.00 following the checkout of cart 1. -/
def sRepriced : Store :=
  (updateProduct (placeOrder noFail s1Ex 1 7).2.1 1 "productA" "" 99 "").2

/-- C2 counterexample: after checking out cart 1 of `s1Ex` (productA at
10.00), raising productA's catalog price to 99.00 changes the order as
retrieved: `GetOrder` now reports 99.00 for that line item, because the
stored `order_items` rows carry no unit-price snapshot and the handler
joins the live catalog price. -/
theorem order_snapshot_counterexample :
    itemPrices (getOrder (placeOrder noFail s1Ex 1 7).2.1 1) =
      some [some 10, some 5] ∧
    itemPrices (getOrder sRepriced 1) = some [some 99, some 5] ∧
    (99 : ℚ) ≠ 10 := by decide

/-- C2 amended: a later catalog price change leaves the stored
`order_items` rows and `orders` rows (hence `total_cost`) unchanged — the
rows store no price at all — but the order *as retrieved* is not frozen:
`GetOrder` joins each line item with the product's current catalog row,
so the reported per-item price follows later catalog changes. -/
theorem order_items_no_snapshot (s : Store) (id : Nat)
    (name description : String) (price : ℚ) (category : String)
    (orderId : Nat) :
    (updateProduct s id name description price category).2.order_items =
      s.order_items ∧
    (updateProduct s id name description price category).2.orders = s.orders ∧
    (∀ v, getOrder (updateProduct s id name description price category).2 orderId =
        .ok v →
      ∀ iv ∈ v.order_items,
        iv.product =
          ((updateProduct s id name description price category).2.products.find?
              (fun p => p.id == iv.product_id)).map
            (fun p => ProductView.mk p.name p.description p.price p.category)) := by
  refine ⟨?_, ?_, fun v hv => getOrder_product_live _ orderId v hv⟩ <;>
  · unfold updateProduct
    cases s.products.find? (fun p => p.id == id) <;> rfl

/-- A store holding an already-completed order 1 (total 25.00, two line
items) with the original catalog prices still in place. -/
def sOrderEx : Store :=
  { products := [{ id := 1, name := "productA", description := "", price := 10, category := "" },
                 { id := 2, name := "productB", description := "", price := 5, category := "" }]
    carts := [{ id := 1, user_id := 7 }]
    cart_items := []
    orders := [{ id := 1, user_id := 7, total_cost := 25 }]
    order_items := [{ order_id := 1, product_id := 1, quantity := 2 },
                    { order_id := 1, product_id := 2, quantity := 1 }]
    nextOrderId := 2 }

/-- Witness for the amended C2: repricing product 1 of `sOrderEx` to 99.00
leaves the stored order rows untouched, and the retrieved line item for
product 1 reports the current catalog price 99.00. -/
theorem order_items_no_snapshot_witness :
    (updateProduct sOrderEx 1 "productA" "" 99 "").2.order_items =
      sOrderEx.order_items ∧
    (updateProduct sOrderEx 1 "productA" "" 99 "").2.orders = sOrderEx.orders ∧
    ({ product_id := 1, quantity := 2,
       product := some (ProductView.mk "productA" "" 99 "") } : OrderItemView).product =
      ((updateProduct sOrderEx 1 "productA" "" 99 "").2.products.find?
          (fun p => p.id == 1)).map
        (fun p => ProductView.mk p.name p.description p.price p.category) := by
  have h := order_items_no_snapshot sOrderEx 1 "productA" "" 99 "" 1
  refine ⟨h.1, h.2.1, ?_⟩
  exact h.2.2
    { id := 1, total_cost := 25
      order_items :=
        [{ product_id := 1, quantity := 2,
           product := some (ProductView.mk "productA" "" 99 "") },
         { product_id := 2, quantity := 1,
           product := some (ProductView.mk "productB" "" 5 "") }] }
    (by decide)
    { product_id := 1, quantity := 2,
      product := some (ProductView.mk "productA" "" 99 "") }
    (by decide)

/-! ## C8: adding a nonexistent product to a cart -/

/-- A store with a one-product catalog and an empty cart 1. -/
def sCatalogEx : Store :=
  { products := [{ id := 1, name := "productA", description := "", price := 10, category := "" }]
    carts := [{ id := 1, user_id := 7 }]
    cart_items := []
    orders := []
    order_items := []
    nextOrderId := 1 }

/-- C8 counterexample: product 42 is not in the catalog, yet adding it to
cart 1 succeeds (201 with the inserted row, not a `BadRequestError`) and
creates a `cart_items` row with a dangling product reference. -/
theorem addProduct_dangling_counterexample :
    sCatalogEx.products.find? (fun p => p.id == 42) = none ∧
    (addProductToCart sCatalogEx 1 (some 42) (some 3)).1 =
      .ok { cart_id := 1, product_id := 42, quantity := 3 } ∧
    ({ cart_id := 1, product_id := 42, quantity := 3 } : CartItemRow) ∈
      (addProductToCart sCatalogEx 1 (some 42) (some 3)).2.cart_items := by decide

/-- C8 amended: the add-item handler validates only that `productId` and
`quantity` are present and truthy; it never consults the `products` table,
so adding an item for a product id absent from the catalog succeeds and
inserts a `cart_items` row whose product reference dangles. -/
theorem addProduct_no_existence_check (s : Store) (cartId pid qty : Nat)
    (hpid : pid ≠ 0) (hqty : qty ≠ 0)
    (habs : ∀ p ∈ s.products, p.id ≠ pid) :
    (addProductToCart s cartId (some pid) (some qty)).1 =
      .ok { cart_id := cartId, product_id := pid, quantity := qty } ∧
    ({ cart_id := cartId, product_id := pid, quantity := qty } : CartItemRow) ∈
      (addProductToCart s cartId (some pid) (some qty)).2.cart_items ∧
    (addProductToCart s cartId (some pid) (some qty)).2.products.find?
      (fun p => p.id == pid) = none := by
  have hguard : ¬((some pid).getD 0 = 0 ∨ (some qty).getD 0 = 0) := by
    simp [hpid, hqty]
  simp only [addProductToCart, if_neg hguard]
  refine ⟨rfl, by simp, ?_⟩
  rw [List.find?_eq_none]
  intro p hp
  simpa using habs p hp

/-- Witness for the amended C8 at the concrete catalog. -/
theorem addProduct_no_existence_check_witness :
    (addProductToCart sCatalogEx 1 (some 42) (some 3)).1 =
      .ok { cart_id := 1, product_id := 42, quantity := 3 } ∧
    ({ cart_id := 1, product_id := 42, quantity := 3 } : CartItemRow) ∈
      (addProductToCart sCatalogEx 1 (some 42) (some 3)).2.cart_items ∧
    (addProductToCart sCatalogEx 1 (some 42) (some 3)).2.products.find?
      (fun p => p.id == 42) = none :=
  addProduct_no_existence_check sCatalogEx 1 42 3 (by decide) (by decide) (by decide)

/-! ## C9: order retrieval -/

/-- C9: `GetOrder` on an id with no matching `orders` row fails with
`NotFoundError("Order not found")`, mapped to HTTP 404; on a resolving id
it returns the order's id and total, one line item per stored
`order_items` row of that order, each joined with the product's current
details. -/
theorem getOrder_spec (s : Store) (orderId : Nat) :
    (s.orders.find? (fun o => o.id == orderId) = none →
      getOrder s orderId = .error (.notFound "Order not found") ∧
      statusOf (.notFound "Order not found") = 404) ∧
    (∀ o, s.orders.find? (fun o => o.id == orderId) = some o →
      ∃ v, getOrder s orderId = .ok v ∧ v.id = o.id ∧ v.total_cost = o.total_cost ∧
        v.order_items.length =
          (s.order_items.filter (fun it => it.order_id == orderId)).length ∧
        ∀ iv ∈ v.order_items,
          iv.product = (s.products.find? (fun p => p.id == iv.product_id)).map
            (fun p => ProductView.mk p.name p.description p.price p.category)) := by
  constructor
  · intro h
    unfold getOrder
    rw [h]
    exact ⟨rfl, rfl⟩
  · intro o ho
    unfold getOrder
    rw [ho]
    refine ⟨_, rfl, rfl, rfl, by simp, ?_⟩
    intro iv hiv
    simp only [List.mem_map] at hiv
    obtain ⟨it, _, rfl⟩ := hiv
    rfl

/-- Witness for C9: order 99 is absent from `sOrderEx` (404), order 1
resolves (no 404). -/
theorem getOrder_spec_witness :
    (getOrder sOrderEx 99 = .error (.notFound "Order not found") ∧
     statusOf (.notFound "Order not found") = 404) ∧
    getOrder sOrderEx 1 ≠ .error (.notFound "Order not found") := by
  refine ⟨(getOrder_spec sOrderEx 99).1 (by decide), ?_⟩
  obtain ⟨v, hv, -, -, -, -⟩ :=
    (getOrder_spec sOrderEx 1).2 { id := 1, user_id := 7, total_cost := 25 } (by decide)
  rw [hv]
  simp

/-! ## C7: cart clearing happens strictly after order persistence -/

/-- The final store of a `PlaceOrder` invocation is one of the states in
its observable trace. -/
theorem placeOrder_final_mem_trace (f : Nat → Bool) (s : Store)
    (cartId userId : Nat) :
    (placeOrder f s cartId userId).2.1 ∈ (placeOrder f s cartId userId).2.2 := by
  by_cases h0 : f 0
  · simp [placeOrder, h0]
  · by_cases hlen : (fetchCartItems s cartId).length = 0
    · simp [placeOrder, h0, hlen]
    · cases htc : totalCost (fetchCartItems s cartId) with
      | none => simp [placeOrder, h0, hlen, htc]
      | some tc =>
        by_cases h1 : f 1
        · simp [placeOrder, h0, hlen, htc, h1]
        · by_cases h2 : f 2
          · simp [placeOrder, h0, hlen, htc, h1, h2]
          · by_cases h3 : f 3
            · simp [placeOrder, h0, hlen, htc, h1, h2, h3]
            · simp [placeOrder, h0, hlen, htc, h1, h2, h3]

/-- C7: in every store state observable during a `PlaceOrder` invocation —
under any failure schedule — if the cart's rows are gone (and the cart was
initially non-empty), then that state already contains the order header
and one `order_items` row for every initial cart item; moreover whenever
the invocation fails, the cart's rows are exactly as they started. -/
theorem placeOrder_clear_only_after_persist (f : Nat → Bool) (s : Store)
    (cartId userId : Nat) :
    (∀ σ ∈ (placeOrder f s cartId userId).2.2,
      cartRows σ cartId = [] → cartRows s cartId ≠ [] →
        (∃ o ∈ σ.orders, o.id = s.nextOrderId ∧ o.user_id = userId) ∧
        ∀ it ∈ fetchCartItems s cartId,
          ({ order_id := s.nextOrderId, product_id := it.product_id,
             quantity := it.quantity } : OrderItemRow) ∈ σ.order_items) ∧
    (∀ e, (placeOrder f s cartId userId).1 = .error e →
      (placeOrder f s cartId userId).2.1.cart_items = s.cart_items) := by
  by_cases h0 : f 0
  · simp only [placeOrder, h0, if_true]
    exact ⟨fun σ hσ h1 h2 => absurd ((List.mem_singleton.mp hσ) ▸ h1) h2,
           fun e _ => trivial⟩
  · by_cases hlen : (fetchCartItems s cartId).length = 0
    · simp only [placeOrder, h0, Bool.false_eq_true, if_false, hlen, if_true]
      exact ⟨fun σ hσ h1 h2 => absurd ((List.mem_singleton.mp hσ) ▸ h1) h2,
             fun e _ => trivial⟩
    · cases htc : totalCost (fetchCartItems s cartId) with
      | none =>
        simp only [placeOrder, h0, Bool.false_eq_true, if_false, hlen, htc]
        exact ⟨fun σ hσ h1 h2 => absurd ((List.mem_singleton.mp hσ) ▸ h1) h2,
               fun e _ => trivial⟩
      | some tc =>
        by_cases h1 : f 1
        · simp only [placeOrder, h0, Bool.false_eq_true, if_false, hlen, htc, h1, if_true]
          exact ⟨fun σ hσ he hn => absurd ((List.mem_singleton.mp hσ) ▸ he) hn,
                 fun e _ => trivial⟩
        · by_cases h2 : f 2
          · simp only [placeOrder, h0, Bool.false_eq_true, if_false, hlen, htc, h1, h2, if_true]
            constructor
            · intro σ hσ he hn
              rcases List.mem_cons.mp hσ with rfl | hσ
              · exact absurd he hn
              · rcases List.mem_singleton.mp hσ with rfl
                exact absurd he hn
            · intro e _; trivial
          · by_cases h3 : f 3
            · simp only [placeOrder, h0, Bool.false_eq_true, if_false, hlen, htc, h1, h2, h3,
                         if_true]
              constructor
              · intro σ hσ he hn
                rcases List.mem_cons.mp hσ with rfl | hσ
                · exact absurd he hn
                · rcases List.mem_cons.mp hσ with rfl | hσ
                  · exact absurd he hn
                  · rcases List.mem_singleton.mp hσ with rfl
                    exact absurd he hn
              · intro e _; trivial
            · simp only [placeOrder, h0, Bool.false_eq_true, if_false, hlen, htc, h1, h2, h3]
              constructor
              · intro σ hσ he hn
                rcases List.mem_cons.mp hσ with rfl | hσ
                · exact absurd he hn
                · rcases List.mem_cons.mp hσ with rfl | hσ
                  · exact absurd he hn
                  · rcases List.mem_cons.mp hσ with rfl | hσ
                    · exact absurd he hn
                    · rcases List.mem_singleton.mp hσ with rfl
                      refine ⟨⟨_, List.mem_append_right _ (List.mem_singleton_self _),
                               rfl, rfl⟩, ?_⟩
                      intro it hit
                      exact List.mem_append_right _ (List.mem_map_of_mem _ hit)
              · intro e he; exact absurd he (by simp)

/-- Witness for C7 on the §8 scenario under the failure-free schedule: in
the final state (a trace state with the cart cleared) both `order_items`
rows exist. -/
theorem placeOrder_clear_only_after_persist_witness :
    ({ order_id := 1, product_id := 1, quantity := 2 } : OrderItemRow) ∈
      (placeOrder noFail s1Ex 1 7).2.1.order_items ∧
    ({ order_id := 1, product_id := 2, quantity := 1 } : OrderItemRow) ∈
      (placeOrder noFail s1Ex 1 7).2.1.order_items ∧
    cartRows (placeOrder noFail s1Ex 1 7).2.1 1 = [] := by
  have h := (placeOrder_clear_only_after_persist noFail s1Ex 1 7).1
    (placeOrder noFail s1Ex 1 7).2.1
    (placeOrder_final_mem_trace noFail s1Ex 1 7) (by decide) (by decide)
  exact ⟨h.2 { product_id := 1, quantity := 2, product := some 10 } (by decide),
         h.2 { product_id := 2, quantity := 1, product := some 5 } (by decide),
         by decide⟩

/-! ## C10: frame conditions of the checkout handler -/

/-- The `cart_items`-with-price join only looks at `cart_items` and
`products`; the `carts` relation is irrelevant to it. -/
theorem fetchCartItems_set_carts (s : Store) (cs : List CartRow) (cartId : Nat) :
    fetchCartItems { s with carts := cs } cartId = fetchCartItems s cartId := rfl

/-- C10: `PlaceOrder` never reads or writes the `carts` relation.  A cart
id with no `cart_items` rows — whether or not any `carts` row exists — is
rejected with the empty-cart error; and under any failure schedule: the
`carts` rows (and the catalog) are exactly those of the initial store,
`cart_items` is either untouched or has exactly the rows of the given
cart removed, `orders` and `order_items` only grow by appended rows, and
replacing the whole `carts` relation does not change the handler's
outcome. -/
theorem placeOrder_frame (f : Nat → Bool) (s : Store) (cartId userId : Nat)
    (cs : List CartRow) :
    (cartRows s cartId = [] →
      (placeOrder noFail s cartId userId).1 = .error (.badRequest "Cart is empty")) ∧
    (placeOrder f s cartId userId).2.1.carts = s.carts ∧
    (placeOrder f s cartId userId).2.1.products = s.products ∧
    ((placeOrder f s cartId userId).2.1.cart_items = s.cart_items ∨
      (placeOrder f s cartId userId).2.1.cart_items =
        s.cart_items.filter (fun it => ¬(it.cart_id == cartId))) ∧
    (∃ new, (placeOrder f s cartId userId).2.1.orders = s.orders ++ new) ∧
    (∃ new, (placeOrder f s cartId userId).2.1.order_items = s.order_items ++ new) ∧
    (placeOrder f { s with carts := cs } cartId userId).1 =
      (placeOrder f s cartId userId).1 := by
  refine ⟨fun h => by rw [placeOrder_cartRows_nil s cartId userId h], ?_⟩
  by_cases h0 : f 0
  · simp only [placeOrder, fetchCartItems_set_carts, h0, if_true]
    exact ⟨trivial, trivial, Or.inl trivial, ⟨[], by simp⟩, ⟨[], by simp⟩, trivial⟩
  · by_cases hlen : (fetchCartItems s cartId).length = 0
    · simp only [placeOrder, fetchCartItems_set_carts, h0, Bool.false_eq_true, if_false,
                 hlen, if_true]
      exact ⟨trivial, trivial, Or.inl trivial, ⟨[], by simp⟩, ⟨[], by simp⟩, trivial⟩
    · cases htc : totalCost (fetchCartItems s cartId) with
      | none =>
        simp only [placeOrder, fetchCartItems_set_carts, h0, Bool.false_eq_true, if_false,
                   hlen, htc]
        exact ⟨trivial, trivial, Or.inl trivial, ⟨[], by simp⟩, ⟨[], by simp⟩, trivial⟩
      | some tc =>
        by_cases h1 : f 1
        · simp only [placeOrder, fetchCartItems_set_carts, h0, Bool.false_eq_true, if_false,
                     hlen, htc, h1, if_true]
          exact ⟨trivial, trivial, Or.inl trivial, ⟨[], by simp⟩, ⟨[], by simp⟩, trivial⟩
        · by_cases h2 : f 2
          · simp only [placeOrder, fetchCartItems_set_carts, h0, Bool.false_eq_true, if_false,
                       hlen, htc, h1, h2, if_true]
            exact ⟨trivial, trivial, Or.inl trivial, ⟨_, rfl⟩, ⟨[], by simp⟩, trivial⟩
          · by_cases h3 : f 3
            · simp only [placeOrder, fetchCartItems_set_carts, h0, Bool.false_eq_true,
                         if_false, hlen, htc, h1, h2, h3, if_true]
              exact ⟨trivial, trivial, Or.inl trivial, ⟨_, rfl⟩, ⟨_, rfl⟩, trivial⟩
            · simp only [placeOrder, fetchCartItems_set_carts, h0, Bool.false_eq_true,
                         if_false, hlen, htc, h1, h2, h3]
              exact ⟨trivial, trivial, Or.inr trivial, ⟨_, rfl⟩, ⟨_, rfl⟩, trivial⟩

/-- Witness for C10 at the store whose cart 1 is empty: the `carts` rows
survive and the empty-cart rejection fires. -/
theorem placeOrder_frame_witness :
    (placeOrder noFail sEmptyEx 1 7).2.1.carts = sEmptyEx.carts ∧
    (placeOrder noFail sEmptyEx 1 7).1 = .error (.badRequest "Cart is empty") := by
  have h := placeOrder_frame noFail sEmptyEx 1 7 []
  exact ⟨h.2.1, h.1 (by decide)⟩
